import Mathlib

/-!
Verification of the SideBySide video-comparison script (`abhi.py`).

The script launches two `ffplay` windows side by side.  We shallowly embed
its observable behaviour: the argument interpreter (lines 100-147), the
`VideoSize` probe-output parser (lines 73-86), the window-geometry
computation and command construction (lines 157-184), the `WaitFor`
readiness poll (lines 88-97), and the overall control flow as a function
from an environment (argv, filesystem, display, probe output, window
state) to a list of observable events plus a final outcome.

Python-specific semantics modelled explicitly:
* `str.strip('0')` removes `'0'` characters from BOTH ends (`pyStrip0`);
* `int(x)` on a float truncates toward zero (`pyInt` on exact rationals;
  the embedding uses exact rational arithmetic for Python's float
  division);
* bare `sys.exit()` exits with status 0; an uncaught `ZeroDivisionError`
  exits with status 1.
-/

namespace SideBySide

attribute [local semireducible] Rat.add Rat.sub Rat.mul Rat.inv

/-- Python `str.lower()` (the script only lowercases ASCII flags). -/
def pyLower (s : String) : String := ⟨s.data.map Char.toLower⟩

/-- Python `str.strip('0')`: drop `'0'` characters from both ends. -/
def pyStrip0 (s : String) : String :=
  ⟨((s.data.dropWhile (· = '0')).reverse.dropWhile (· = '0')).reverse⟩

/-- The `-grey` shortcut expansion (line 135). -/
def greyArgs : String := "-vf colorchannelmixer=.3:.4:.3:0:.3:.4:.3:0:.3:.4:.3"

/-- The `-sepia` shortcut expansion (line 137). -/
def sepiaArgs : String :=
  "-vf colorchannelmixer=.393:.769:.189:0:.349:.686:.168:0:.272:.534:.131"

/-- The `-contrast v` template (line 140): `-vf colorlevels=rimin=%s:gimin=%s:bimin=%s`. -/
def contrastArgs (cval : String) : String :=
  "-vf colorlevels=rimin=" ++ cval ++ ":gimin=" ++ cval ++ ":bimin=" ++ cval

/-- The `-gamma v` template (line 143): `-vf eq=gamma=%s`. -/
def gammaArgs (gval : String) : String := "-vf eq=gamma=" ++ gval

/-- Lines 133-147: turn `sys.argv` (program name included, index 0) into the
passthrough-args string for the second player invocation. -/
def interpretArgs (argv : List String) : String :=
  if 3 < argv.length then
    if pyLower (argv.getD 3 "") = "-grey" then greyArgs
    else if pyLower (argv.getD 3 "") = "-sepia" then sepiaArgs
    else if pyLower (argv.getD 3 "") = "-contrast" ∧ 4 < argv.length then
      contrastArgs (pyStrip0 (argv.getD 4 ""))
    else if pyLower (argv.getD 3 "") = "-gamma" ∧ 4 < argv.length then
      gammaArgs (pyStrip0 (argv.getD 4 ""))
    else String.intercalate " " (argv.drop 3)
  else ""

example : interpretArgs ["SideBySide", "video1.mp4", "-same", "-gamma", "0.90"]
    = "-vf eq=gamma=.9" := by decide

example : interpretArgs ["SideBySide", "a.mp4", "b.mp4"] = "" := by decide

example : interpretArgs ["SideBySide", "a.mp4", "-same", "-contrast"] = "-contrast" := by
  decide

/-! ### `VideoSize` (lines 73-86): parse ffprobe's stderr for a frame size -/

/-- Python `pat in line` substring test. -/
def containsSub (pat : List Char) : List Char → Bool
  | [] => pat.isPrefixOf ([] : List Char)
  | c :: rest => pat.isPrefixOf (c :: rest) || containsSub pat rest

/-- Try to match the regex `' \d+x\d+ '` at the head of the list; on success
return the two digit groups.  The pattern is deterministic: each `\d+` is a
maximal digit run (backtracking cannot help, since `\d` matches neither `x`
nor a space). -/
def matchWxHAt (l : List Char) : Option (List Char × List Char) :=
  match l with
  | ' ' :: r =>
    match List.span Char.isDigit r with
    | (d1, 'x' :: r2) =>
      if d1.isEmpty then none
      else
        match List.span Char.isDigit r2 with
        | (d2, ' ' :: _) => if d2.isEmpty then none else some (d1, d2)
        | _ => none
    | _ => none
  | _ => none

/-- `re.search(' \d+x\d+ ', line)`: leftmost match, as the digit groups. -/
def searchWxH : List Char → Option (List Char × List Char)
  | [] => none
  | c :: rest =>
    match matchWxHAt (c :: rest) with
    | some r => some r
    | none => searchWxH rest

/-- Python `int` of a non-empty string of decimal digits. -/
def digitsToNat (l : List Char) : Nat :=
  l.foldl (fun n c => 10 * n + (c.toNat - '0'.toNat)) 0

/-- `'Video:'` as a character list. -/
def videoMarker : List Char := "Video:".data

/-- The loop of lines 80-86: scan the lines; on the first `Video:` line whose
text matches `' \d+x\d+ '`, return `(int w, int h)` (the slice
`line[1+start():end()-1]` is exactly `d1 ++ 'x' ++ d2`, so `split('x')`
recovers the two digit groups); if no line matches, fall through to `(0, 0)`. -/
def findSize : List (List Char) → Nat × Nat
  | [] => (0, 0)
  | line :: rest =>
    if containsSub videoMarker line then
      match searchWxH line with
      | some (d1, d2) => (digitsToNat d1, digitsToNat d2)
      | none => findSize rest
    else findSize rest

/-- Python `str.split('\n')` on a character list (keeps empty pieces). -/
def splitOnNl : List Char → List (List Char)
  | [] => [[]]
  | c :: rest =>
    let r := splitOnNl rest
    if c = '\n' then [] :: r
    else
      match r with
      | [] => [[c]]
      | l :: ls => (c :: l) :: ls

/-- `VideoSize` as a function of the probe's stderr text (the
`subprocess.run` call itself is the external collaborator). -/
def videoSize (stderr : String) : Nat × Nat :=
  findSize (splitOnNl stderr.data)

example : videoSize "x\n  Stream #0:0: Video: h264, 1920x1080 [SAR]\n" = (1920, 1080) := by
  decide

example : videoSize "  Stream #0:0: Video: h264, 1920x1080, 25 fps\n" = (0, 0) := by
  decide

example : videoSize "no video here" = (0, 0) := by decide

/-! ### Geometry and command construction (lines 157-184)

Python's float division is modelled by exact rational division; `int(x)`
truncates toward zero.  A float division whose divisor is zero raises
`ZeroDivisionError`, so the spec-building function returns `Option`. -/

/-- Python `int(x)` on a real value: truncation toward zero. -/
def pyInt (q : ℚ) : ℤ := if 0 ≤ q then ⌊q⌋ else ⌈q⌉

/-- Line 130-131: `-same` makes the second video alias the first. -/
def resolveVideo2 (video1 video2 : String) : String :=
  if video2 = "-same" then video1 else video2

/-- The ingredients of one `ffplay` invocation: window title, input path,
passthrough filter args (empty for the first window, which gets none),
window width/height, and the `-left`/`-top` origin strings. -/
structure LaunchSpec where
  title : String
  path : String
  args : String
  w : ℤ
  h : ℤ
  left : String
  top : String
  cmd : String
deriving DecidableEq

/-- Line 181-182: the first command line (no filter args slot). -/
def renderCmd1 (title input : String) (w h : ℤ) (left top : String) : String :=
  "ffplay -v 0 -window_title \x22" ++ title ++ "\x22 -i \x22" ++ input ++ "\x22"
    ++ " -x " ++ toString w ++ " -y " ++ toString h
    ++ " -left " ++ left ++ " -top " ++ top

/-- Line 183-184: the second command line, carrying the filter args. -/
def renderCmd2 (title input args : String) (w h : ℤ) (left top : String) : String :=
  "ffplay -v 0 -window_title \x22" ++ title ++ "\x22 -i \x22" ++ input ++ "\x22 " ++ args
    ++ " -x " ++ toString w ++ " -y " ++ toString h
    ++ " -left " ++ left ++ " -top " ++ top

/-- Lines 157-184: from the resolved video paths, the interpreted args, the
display width and the probed video size, build both launch specs.  `none`
models the uncaught `ZeroDivisionError` raised when the probed height is
zero (line 168, `aspect = vw / vh`) or the probed width is zero (line 172,
`vh = int(vw / aspect)` with `aspect == 0.0`). -/
def launchSpecs (video1 video2 args : String) (dw : ℕ) (vsize : ℕ × ℕ) :
    Option (LaunchSpec × LaunchSpec) :=
  if vsize.2 = 0 then none
  else
    let aspect : ℚ := (vsize.1 : ℚ) / (vsize.2 : ℚ)
    if aspect = 0 then none
    else
      let vw : ℤ := pyInt (((dw : ℚ) - 20) / 2)
      let vh : ℤ := pyInt ((vw : ℚ) / aspect)
      let x1 : String := "10"
      let y1 : String := "35"
      let x2 : String := toString (pyInt ((dw : ℚ) / 2) + 5)
      let y2 : String := "35"
      let title1 := "1: " ++ video1
      let title2 := "2: " ++ video2
      some
        ({ title := title1, path := video1, args := "", w := vw, h := vh,
           left := x1, top := y1,
           cmd := renderCmd1 title1 video1 vw vh x1 y1 },
         { title := title2, path := video2, args := args, w := vw, h := vh,
           left := x2, top := y2,
           cmd := renderCmd2 title2 video2 args vw vh x2 y2 })

example : pyInt ((-1 : ℚ) / 2) = 0 := by decide

example :
    (launchSpecs "a" "a" "" 1920 (4, 2)).map (fun p => (p.1.w, p.1.h, p.2.left))
      = some (950, 475, "965") := by decide

/-! ### `WaitFor` (lines 88-97) -/

/-- Result of one `WaitFor` call: the window became active after `iters`
100ms sleeps, or the budget expired (printing `expired` and exiting). -/
inductive WaitOutcome where
  | active (iters : Nat)
  | expired
deriving DecidableEq

/-- The loop of lines 90-96, with `poll i` standing for the i-th
`aut.WinActive(title)` query and `fuel` for the remaining `timeout`
counter (already multiplied by 10).  Every call in the script has
`fuel = 50 ≥ 1`, for which this is exactly the source loop: test, sleep,
decrement, exit when the counter hits zero. -/
def waitForAux (poll : Nat → Bool) : Nat → Nat → WaitOutcome
  | _, 0 => WaitOutcome.expired
  | i, fuel + 1 => if poll i then WaitOutcome.active i else waitForAux poll (i + 1) fuel

/-- `WaitFor(title, timeout)` (line 88): the counter is `timeout * 10`. -/
def waitFor (poll : Nat → Bool) (timeout : Nat) : WaitOutcome :=
  waitForAux poll 0 (timeout * 10)

example : waitFor (fun _ => false) 5 = WaitOutcome.expired := by decide
example : waitFor (fun i => i = 49) 5 = WaitOutcome.active 49 := by decide
example : waitFor (fun i => i = 50) 5 = WaitOutcome.expired := by decide

/-! ### The script's control flow (lines 100-215) -/

/-- Everything external the script consumes: `sys.argv` (program name at
index 0), the filesystem (`os.path.isfile`), the display size, the probe's
stderr text, whether each `aut.Run` succeeds (nonzero PID), and the two
windows' activity as seen by the two `WaitFor` polls. -/
structure Env where
  argv : List String
  isfile : String → Bool
  dw : Nat
  dh : Nat
  probeStderr : String
  runOk1 : Bool
  runOk2 : Bool
  poll1 : Nat → Bool
  poll2 : Nat → Bool

/-- Observable events of a run, in order. -/
inductive Event where
  | printUsage
  | printNotFound (f : String)
  | printCmd (cmd : String)
  | spawn (s : LaunchSpec)
  | printCouldNotStart
  | printExpired
deriving DecidableEq

/-- How the run ends.  Bare `sys.exit()` gives status 0; an uncaught
`ZeroDivisionError` gives status 1; `reachedLifecycleLoop` marks entry
into the final `WinExists` poll loop (lines 211-215). -/
inductive Outcome where
  | exitUsage
  | exitNotFound
  | crashZeroDiv
  | exitLaunchFail
  | exitExpired
  | reachedLifecycleLoop
deriving DecidableEq

/-- The process exit status of each outcome (`none` while the lifecycle
loop is still running). -/
def Outcome.exitCode : Outcome → Option Nat
  | Outcome.exitUsage => some 0
  | Outcome.exitNotFound => some 0
  | Outcome.crashZeroDiv => some 1
  | Outcome.exitLaunchFail => some 0
  | Outcome.exitExpired => some 0
  | Outcome.reachedLifecycleLoop => none

/-- Is this event a spawn of a player process? -/
def isSpawn : Event → Bool
  | Event.spawn _ => true
  | _ => false

/-- Is this event one of the diagnostics of lines 102 and 150/154? -/
def isDiagnostic : Event → Bool
  | Event.printUsage => true
  | Event.printNotFound _ => true
  | _ => false

/-- `video1 = sys.argv[1]` (line 127). -/
def argVideo1 (e : Env) : String := e.argv.getD 1 ""

/-- `video2` after the `-same` aliasing of lines 128-131. -/
def argVideo2 (e : Env) : String := resolveVideo2 (argVideo1 e) (e.argv.getD 2 "")

/-- Lines 100-215 as one function from the environment to the ordered list
of observable events and the final outcome.  Window titles, the AutoIt
object and the handles are internal; the probe/display/window queries are
read from `Env`. -/
def mainModel (e : Env) : List Event × Outcome :=
  if e.argv.length < 3 then ([Event.printUsage], Outcome.exitUsage)
  else
    let video1 := argVideo1 e
    let video2 := argVideo2 e
    let args := interpretArgs e.argv
    if ¬ e.isfile video1 then ([Event.printNotFound video1], Outcome.exitNotFound)
    else if ¬ e.isfile video2 then ([Event.printNotFound video2], Outcome.exitNotFound)
    else
      match launchSpecs video1 video2 args e.dw (videoSize e.probeStderr) with
      | none => ([], Outcome.crashZeroDiv)
      | some (s1, s2) =>
        let ev1 := [Event.printCmd s1.cmd, Event.spawn s1]
        if ¬ e.runOk1 then (ev1 ++ [Event.printCouldNotStart], Outcome.exitLaunchFail)
        else
          match waitFor e.poll1 5 with
          | WaitOutcome.expired => (ev1 ++ [Event.printExpired], Outcome.exitExpired)
          | WaitOutcome.active _ =>
            let ev2 := ev1 ++ [Event.printCmd s2.cmd, Event.spawn s2]
            if ¬ e.runOk2 then (ev2 ++ [Event.printCouldNotStart], Outcome.exitLaunchFail)
            else
              match waitFor e.poll2 5 with
              | WaitOutcome.expired => (ev2 ++ [Event.printExpired], Outcome.exitExpired)
              | WaitOutcome.active _ => (ev2, Outcome.reachedLifecycleLoop)

/-! ## Claims -/

/-- C1 (counterexample): for `SideBySide video1.mp4 -same -gamma 0.90` the
passthrough-args string does NOT equal `-vf eq=gamma=0.9`: Python's
`strip('0')` (line 142) removes the LEADING `0` as well as the trailing
one. -/
theorem claim1_counterexample :
    interpretArgs ["SideBySide", "video1.mp4", "-same", "-gamma", "0.90"]
      ≠ "-vf eq=gamma=0.9" := by decide

/-- C1 (amended): for `SideBySide video1.mp4 -same -gamma 0.90` the
passthrough-args string handed to the second player invocation equals
exactly `-vf eq=gamma=.9`: both the trailing zero and the leading zero of
the value are stripped by `sys.argv[4].strip('0')`. -/
theorem claim1_gamma_zero_stripping :
    interpretArgs ["SideBySide", "video1.mp4", "-same", "-gamma", "0.90"]
      = "-vf eq=gamma=.9" := by decide

/-- C6: whenever the first trailing flag (argv index 3) is `-grey` or
`-sepia`, the passthrough-args string equals exactly the corresponding
fixed colorchannelmixer filter expression, regardless of any further
arguments supplied after the flag. -/
theorem claim6_grey_sepia_fixed (argv : List String) (hlen : 3 < argv.length) :
    (argv.getD 3 "" = "-grey" → interpretArgs argv = greyArgs) ∧
    (argv.getD 3 "" = "-sepia" → interpretArgs argv = sepiaArgs) := by
  have hg : pyLower "-grey" = "-grey" := by decide
  have hs : pyLower "-sepia" = "-sepia" := by decide
  have hne : ("-sepia" : String) ≠ "-grey" := by decide
  constructor
  · intro h3
    simp only [interpretArgs, h3, hg]
    rw [if_pos hlen]
    simp
  · intro h3
    simp only [interpretArgs, h3, hs]
    rw [if_pos hlen, if_neg hne]
    simp

/-- C6 (witness): concrete runs with junk after the flag. -/
theorem claim6_grey_sepia_fixed_witness :
    interpretArgs ["SideBySide", "a.mp4", "-same", "-grey", "junk"] = greyArgs ∧
    interpretArgs ["SideBySide", "a.mp4", "-same", "-sepia", "junk"] = sepiaArgs :=
  ⟨(claim6_grey_sepia_fixed ["SideBySide", "a.mp4", "-same", "-grey", "junk"]
      (by decide)).1 (by decide),
   (claim6_grey_sepia_fixed ["SideBySide", "a.mp4", "-same", "-sepia", "junk"]
      (by decide)).2 (by decide)⟩

/-- C10: when `-contrast` or `-gamma` is the first trailing flag and no
value argument follows it (argv is exactly program, two positionals and
the flag), the interpreter does not reject the input: the
`len(sys.argv) > 4` guard fails, control falls through to the verbatim
branch, and the passthrough-args string is the space-join of the entire
trailing argument list, i.e. the flag itself. -/
theorem claim10_flag_without_value_verbatim (a b c d : String)
    (h3 : d = "-contrast" ∨ d = "-gamma") :
    interpretArgs [a, b, c, d] = String.intercalate " " ([a, b, c, d].drop 3) ∧
    interpretArgs [a, b, c, d] = d := by
  have hc : pyLower "-contrast" = "-contrast" := by decide
  have hga : pyLower "-gamma" = "-gamma" := by decide
  have h1 : ("-contrast" : String) ≠ "-grey" := by decide
  have h2 : ("-contrast" : String) ≠ "-sepia" := by decide
  have h4 : ("-gamma" : String) ≠ "-grey" := by decide
  have h5 : ("-gamma" : String) ≠ "-sepia" := by decide
  have h6 : ("-gamma" : String) ≠ "-contrast" := by decide
  rcases h3 with rfl | rfl
  · constructor <;>
      simp [interpretArgs, hc, h1, h2, String.intercalate, String.intercalate.go]
  · constructor <;>
      simp [interpretArgs, hga, h4, h5, h6, String.intercalate, String.intercalate.go]

/-- C10 (witness): `SideBySide v.mp4 -same -contrast` passes the bare flag
through verbatim. -/
theorem claim10_flag_without_value_verbatim_witness :
    interpretArgs ["SideBySide", "v.mp4", "-same", "-contrast"] = "-contrast" :=
  (claim10_flag_without_value_verbatim "SideBySide" "v.mp4" "-same" "-contrast"
    (Or.inl rfl)).2

/-- A default launch-spec pair for `Option.getD`. -/
def emptySpecPair : LaunchSpec × LaunchSpec :=
  (⟨"", "", "", 0, 0, "", "", ""⟩, ⟨"", "", "", 0, 0, "", "", ""⟩)

/-- C7: whenever the second positional argument is the literal `-same`,
the resolved second video path is the first one, so both launch command
lines reference the identical source video path — and only the second
spec carries the passthrough filter args (the first carries none). -/
theorem claim7_same_aliasing (v args : String) (dw : Nat) (vs : Nat × Nat)
    (p : LaunchSpec × LaunchSpec)
    (h : launchSpecs v (resolveVideo2 v "-same") args dw vs = some p) :
    resolveVideo2 v "-same" = v ∧
    p.1.path = p.2.path ∧ p.1.args = "" ∧ p.2.args = args := by
  have hsame : resolveVideo2 v "-same" = v := if_pos rfl
  refine ⟨hsame, ?_⟩
  rw [hsame] at h
  simp only [launchSpecs] at h
  split at h
  · simp at h
  · split at h
    · simp at h
    · obtain rfl := Option.some.inj h
      exact ⟨rfl, rfl, rfl⟩

/-- The spec pair built for `SideBySide v.mp4 -same -vf smartblur` on a
1920-wide display with a 4x2 source. -/
def samePair : LaunchSpec × LaunchSpec :=
  (launchSpecs "v.mp4" (resolveVideo2 "v.mp4" "-same") "-vf smartblur" 1920
    (4, 2)).getD emptySpecPair

/-- C7 (witness): the concrete `-same` run. -/
theorem claim7_same_aliasing_witness :
    resolveVideo2 "v.mp4" "-same" = "v.mp4" ∧
    samePair.1.path = samePair.2.path ∧ samePair.1.args = "" ∧
    samePair.2.args = "-vf smartblur" :=
  claim7_same_aliasing "v.mp4" "-vf smartblur" 1920 (4, 2) samePair (by decide)

/-- C9: for every display width, the left window's origin handed to the
player is `("10", "35")` and the right window's is
`(str(floor(dw/2) + 5), "35")`; both share the fixed vertical offset 35. -/
theorem claim9_window_origins (dw : Nat) (v1 v2 a : String) (vs : Nat × Nat)
    (p : LaunchSpec × LaunchSpec) (h : launchSpecs v1 v2 a dw vs = some p) :
    p.1.left = "10" ∧ p.1.top = "35" ∧
    p.2.left = toString (⌊((dw : ℚ) / 2)⌋ + 5) ∧ p.2.top = "35" := by
  have hnn : (0 : ℚ) ≤ (dw : ℚ) / 2 := by positivity
  have hint : pyInt ((dw : ℚ) / 2) = ⌊((dw : ℚ) / 2)⌋ := if_pos hnn
  simp only [launchSpecs] at h
  split at h
  · simp at h
  · split at h
    · simp at h
    · obtain rfl := Option.some.inj h
      exact ⟨rfl, rfl, by rw [← hint], rfl⟩

/-- The spec pair for an odd display width 101 with a 4x2 source. -/
def oddWidthPair : LaunchSpec × LaunchSpec :=
  (launchSpecs "a" "b" "" 101 (4, 2)).getD emptySpecPair

/-- C9 (witness): display width 101 puts the right window at `55 = 101/2 + 5`. -/
theorem claim9_window_origins_witness :
    oddWidthPair.1.left = "10" ∧ oddWidthPair.1.top = "35" ∧
    oddWidthPair.2.left = toString (⌊(((101 : Nat) : ℚ) / 2)⌋ + 5) ∧
    oddWidthPair.2.top = "35" :=
  claim9_window_origins 101 "a" "b" "" (4, 2) oddWidthPair (by decide)

/-- C4 (counterexample): the claim quantifies over every display size, but
for `D_w = 19` (any source size, here 1x1) the code computes width
`int((19-20)/2) = int(-0.5) = 0` — Python `int()` truncates toward zero —
while `floor((19-20)/2) = -1`. -/
theorem claim4_counterexample :
    (launchSpecs "a" "a" "" 19 (1, 1)).map (fun p => p.1.w) = some 0 ∧
    ⌊((((19 : Nat) : ℚ) - 20) / 2)⌋ = -1 ∧ (0 : ℤ) ≠ -1 := by
  refine ⟨by decide, by decide, by decide⟩

/-- C4 (amended): for every display width `dw ≥ 20` and source size with
positive width and height, the computed window width is
`floor((dw - 20) / 2)` and the height is `floor(width / (vw0 / vh0))`
(exact-rational reading of the float arithmetic), and the identical width
and height are used in both windows' launch specs. -/
theorem claim4_geometry (dw vw0 vh0 : Nat) (v1 v2 a : String)
    (hdw : 20 ≤ dw) (hw : 0 < vw0) (hh : 0 < vh0)
    (p : LaunchSpec × LaunchSpec)
    (h : launchSpecs v1 v2 a dw (vw0, vh0) = some p) :
    p.1.w = ⌊(((dw : ℚ) - 20) / 2)⌋ ∧
    p.1.h = ⌊((p.1.w : ℚ) / ((vw0 : ℚ) / (vh0 : ℚ)))⌋ ∧
    p.2.w = p.1.w ∧ p.2.h = p.1.h := by
  have h20 : (20 : ℚ) ≤ (dw : ℚ) := by exact_mod_cast hdw
  have hwq : (0 : ℚ) < (vw0 : ℚ) := by exact_mod_cast hw
  have hhq : (0 : ℚ) < (vh0 : ℚ) := by exact_mod_cast hh
  have hwnn : (0 : ℚ) ≤ ((dw : ℚ) - 20) / 2 := by
    apply div_nonneg <;> linarith
  have hvw : pyInt (((dw : ℚ) - 20) / 2) = ⌊(((dw : ℚ) - 20) / 2)⌋ := if_pos hwnn
  have haspect : (0 : ℚ) < (vw0 : ℚ) / (vh0 : ℚ) := div_pos hwq hhq
  have hvwnn : (0 : ℤ) ≤ pyInt (((dw : ℚ) - 20) / 2) := by
    rw [hvw]; exact Int.floor_nonneg.mpr hwnn
  have hhnn : (0 : ℚ) ≤ (pyInt (((dw : ℚ) - 20) / 2) : ℚ) / ((vw0 : ℚ) / (vh0 : ℚ)) := by
    apply div_nonneg _ haspect.le
    exact_mod_cast hvwnn
  have hvh :
      pyInt ((pyInt (((dw : ℚ) - 20) / 2) : ℚ) / ((vw0 : ℚ) / (vh0 : ℚ)))
        = ⌊((pyInt (((dw : ℚ) - 20) / 2) : ℚ) / ((vw0 : ℚ) / (vh0 : ℚ)))⌋ :=
    if_pos hhnn
  simp only [launchSpecs] at h
  split at h
  · simp at h
  · split at h
    · simp at h
    · obtain rfl := Option.some.inj h
      exact ⟨hvw, hvh, rfl, rfl⟩

/-- The spec pair for a 1920-wide display with a 4x2 source (no `-same`). -/
def plainPair : LaunchSpec × LaunchSpec :=
  (launchSpecs "a" "b" "" 1920 (4, 2)).getD emptySpecPair

/-- C4 (witness): display width 1920 with a 4x2 source gives width 950 and
height 475 in both specs. -/
theorem claim4_geometry_witness :
    plainPair.1.w = ⌊((((1920 : Nat) : ℚ) - 20) / 2)⌋ ∧
    plainPair.1.h = ⌊((plainPair.1.w : ℚ) / (((4 : Nat) : ℚ) / ((2 : Nat) : ℚ)))⌋ ∧
    plainPair.2.w = plainPair.1.w ∧ plainPair.2.h = plainPair.1.h :=
  claim4_geometry 1920 4 2 "a" "b" "" (by decide) (by decide) (by decide)
    plainPair (by decide)

/-- If every `Video:` line fails the `' \d+x\d+ '` search, the scan falls
through to the `(0, 0)` sentinel. -/
theorem findSize_eq_zero (lines : List (List Char))
    (h : ∀ l ∈ lines, containsSub videoMarker l = true → searchWxH l = none) :
    findSize lines = (0, 0) := by
  induction lines with
  | nil => rfl
  | cons line rest ih =>
    simp only [findSize]
    by_cases hc : containsSub videoMarker line = true
    · rw [if_pos hc, h line (List.mem_cons_self _ _) hc]
      exact ih fun l hl => h l (List.mem_cons_of_mem _ hl)
    · rw [if_neg hc]
      exact ih fun l hl => h l (List.mem_cons_of_mem _ hl)

/-- C3: for every probe output in which no space-delimited `WxH` digit
token occurs on a line containing `Video:`, `VideoSize` returns the zero
sentinel `(0, 0)`; and in every run that reaches the geometry computation
with such probe output (enough arguments, both files present), the
aspect-ratio division `vw / vh` divides by the zero height, so the run
ends in the `ZeroDivisionError` branch. -/
theorem claim3_zero_sentinel_divzero (s : String)
    (h : ∀ l ∈ splitOnNl s.data, containsSub videoMarker l = true → searchWxH l = none) :
    videoSize s = (0, 0) ∧
    ∀ e : Env, e.probeStderr = s → 3 ≤ e.argv.length →
      e.isfile (argVideo1 e) = true → e.isfile (argVideo2 e) = true →
      (mainModel e).2 = Outcome.crashZeroDiv := by
  have hvs : videoSize s = (0, 0) := findSize_eq_zero _ h
  refine ⟨hvs, ?_⟩
  intro e hps hlen h1 h2
  simp only [mainModel]
  rw [if_neg (by omega)]
  rw [if_neg (by simp [h1]), if_neg (by simp [h2])]
  rw [hps, hvs]
  simp [launchSpecs]

/-- Probe output whose only `Video:` line carries no frame-size token. -/
def probeFailEnv : Env :=
  { argv := ["SideBySide", "a.mp4", "b.mp4"], isfile := fun _ => true,
    dw := 1920, dh := 1080, probeStderr := "Video: unknown", runOk1 := true,
    runOk2 := true, poll1 := fun _ => true, poll2 := fun _ => true }

/-- C3 (witness): `ffprobe` text with a `Video:` line but no `WxH` token. -/
theorem claim3_zero_sentinel_divzero_witness :
    videoSize "Video: unknown" = (0, 0) ∧
    (mainModel probeFailEnv).2 = Outcome.crashZeroDiv :=
  ⟨(claim3_zero_sentinel_divzero "Video: unknown" (by decide)).1,
   (claim3_zero_sentinel_divzero "Video: unknown" (by decide)).2 probeFailEnv rfl
     (by decide) rfl rfl⟩

/-- `waitForAux` expires whenever every poll inside the budget is false:
only the first `fuel` polls are ever consulted. -/
theorem waitForAux_expired_of_never (poll : Nat → Bool) :
    ∀ fuel i, (∀ n, n < fuel → poll (i + n) = false) →
      waitForAux poll i fuel = WaitOutcome.expired := by
  intro fuel
  induction fuel with
  | zero => intro i _; rfl
  | succ f ih =>
    intro i h
    have h0 : poll i = false := by simpa using h 0 (Nat.succ_pos f)
    simp only [waitForAux, h0, Bool.false_eq_true, if_false]
    exact ih (i + 1) fun n hn => by
      have := h (n + 1) (Nat.succ_lt_succ hn)
      simpa [show i + 1 + n = i + (n + 1) by omega] using this

/-- C5: if the first window's title is inactive at every one of the 50
polls in the budget (in particular if it never becomes active), then
`WaitFor(title1, 5)` expires — it consults at most the first 50 100ms
polls — the run prints `expired` and exits, and the lifecycle poll loop
of lines 211-215 is never entered. -/
theorem claim5_waitfor_expires (e : Env) (p : LaunchSpec × LaunchSpec)
    (hp : ∀ n, n < 50 → e.poll1 n = false)
    (hlen : 3 ≤ e.argv.length)
    (h1 : e.isfile (argVideo1 e) = true) (h2 : e.isfile (argVideo2 e) = true)
    (hspec : launchSpecs (argVideo1 e) (argVideo2 e) (interpretArgs e.argv) e.dw
      (videoSize e.probeStderr) = some p)
    (hrun : e.runOk1 = true) :
    waitFor e.poll1 5 = WaitOutcome.expired ∧
    Event.printExpired ∈ (mainModel e).1 ∧
    (mainModel e).2 = Outcome.exitExpired ∧
    (mainModel e).2 ≠ Outcome.reachedLifecycleLoop := by
  have hwf : waitFor e.poll1 5 = WaitOutcome.expired :=
    waitForAux_expired_of_never e.poll1 50 0 (by simpa using hp)
  refine ⟨hwf, ?_⟩
  simp only [mainModel]
  rw [if_neg (by omega)]
  rw [if_neg (by simp [h1]), if_neg (by simp [h2])]
  rw [hspec]
  simp [hrun, hwf]

/-- A run in which the first window never becomes active. -/
def neverActiveEnv : Env :=
  { argv := ["SideBySide", "a.mp4", "b.mp4"], isfile := fun _ => true,
    dw := 1920, dh := 1080, probeStderr := "x Video: 4x2 y", runOk1 := true,
    runOk2 := true, poll1 := fun _ => false, poll2 := fun _ => true }

/-- The launch-spec pair of `neverActiveEnv`. -/
def neverActivePair : LaunchSpec × LaunchSpec :=
  (launchSpecs (argVideo1 neverActiveEnv) (argVideo2 neverActiveEnv)
    (interpretArgs neverActiveEnv.argv) neverActiveEnv.dw
    (videoSize neverActiveEnv.probeStderr)).getD emptySpecPair

/-- C5 (witness): with an always-false poll the run expires and never
reaches the lifecycle loop. -/
theorem claim5_waitfor_expires_witness :
    waitFor neverActiveEnv.poll1 5 = WaitOutcome.expired ∧
    Event.printExpired ∈ (mainModel neverActiveEnv).1 ∧
    (mainModel neverActiveEnv).2 = Outcome.exitExpired ∧
    (mainModel neverActiveEnv).2 ≠ Outcome.reachedLifecycleLoop :=
  claim5_waitfor_expires neverActiveEnv neverActivePair (by decide) (by decide)
    rfl rfl (by decide) rfl

/-- A run with only one positional argument. -/
def usageEnv : Env :=
  { argv := ["SideBySide", "video1.mp4"], isfile := fun _ => true,
    dw := 1920, dh := 1080, probeStderr := "", runOk1 := true,
    runOk2 := true, poll1 := fun _ => true, poll2 := fun _ => true }

/-- C2 (counterexample): with one positional argument the program does
print the usage diagnostic, but every error exit in the script is a bare
`sys.exit()`, which terminates with status 0 — there is no non-zero exit
status. -/
theorem claim2_counterexample :
    (mainModel usageEnv).1.any isDiagnostic = true ∧
    (mainModel usageEnv).2.exitCode = some 0 ∧
    ¬ ∃ c, (mainModel usageEnv).2.exitCode = some c ∧ c ≠ 0 := by
  refine ⟨rfl, rfl, ?_⟩
  rintro ⟨c, hc, hne⟩
  have h0 : (mainModel usageEnv).2.exitCode = some 0 := rfl
  rw [h0] at hc
  exact hne (Option.some.inj hc).symm

/-- C2 (amended): whenever fewer than two positional arguments are
supplied, or a referenced video file does not exist on disk, the program
prints a diagnostic (usage text or a file-not-found message) and exits —
with exit status 0, since both paths use a bare `sys.exit()`. -/
theorem claim2_diagnostic_exit (e : Env)
    (h : e.argv.length < 3 ∨
      (3 ≤ e.argv.length ∧
        (e.isfile (argVideo1 e) = false ∨ e.isfile (argVideo2 e) = false))) :
    (mainModel e).1.any isDiagnostic = true ∧
    (mainModel e).2.exitCode = some 0 := by
  rcases h with hlt | ⟨hge, hfile⟩
  · simp only [mainModel]
    rw [if_pos hlt]
    exact ⟨rfl, rfl⟩
  · simp only [mainModel]
    rw [if_neg (by omega)]
    by_cases hv1 : e.isfile (argVideo1 e) = true
    · have hv2 : e.isfile (argVideo2 e) = false := by
        rcases hfile with hf | hf
        · rw [hv1] at hf; cases hf
        · exact hf
      rw [if_neg (by simp [hv1]), if_pos (by simp [hv2])]
      exact ⟨rfl, rfl⟩
    · rw [if_pos (by simpa using hv1)]
      exact ⟨rfl, rfl⟩

/-- A run whose video files are absent from the filesystem. -/
def missingFileEnv : Env :=
  { argv := ["SideBySide", "a.mp4", "b.mp4"], isfile := fun _ => false,
    dw := 1920, dh := 1080, probeStderr := "", runOk1 := true,
    runOk2 := true, poll1 := fun _ => true, poll2 := fun _ => true }

/-- C2 (witness): a missing input file yields a diagnostic and status 0. -/
theorem claim2_diagnostic_exit_witness :
    (mainModel missingFileEnv).1.any isDiagnostic = true ∧
    (mainModel missingFileEnv).2.exitCode = some 0 :=
  claim2_diagnostic_exit missingFileEnv (Or.inr ⟨by decide, Or.inl rfl⟩)

/-- C8: whenever either (resolved) input path does not exist on disk, the
run ends at the file-not-found exit and no spawn event is ever emitted:
the program terminates before any player process launch. -/
theorem claim8_no_spawn_when_missing (e : Env)
    (hlen : 3 ≤ e.argv.length)
    (h : e.isfile (argVideo1 e) = false ∨ e.isfile (argVideo2 e) = false) :
    ((mainModel e).1.all fun ev => !(isSpawn ev)) = true ∧
    (mainModel e).2 = Outcome.exitNotFound := by
  simp only [mainModel]
  rw [if_neg (by omega)]
  by_cases hv1 : e.isfile (argVideo1 e) = true
  · have hv2 : e.isfile (argVideo2 e) = false := by
      rcases h with hf | hf
      · rw [hv1] at hf; cases hf
      · exact hf
    rw [if_neg (by simp [hv1]), if_pos (by simp [hv2])]
    exact ⟨rfl, rfl⟩
  · rw [if_pos (by simpa using hv1)]
    exact ⟨rfl, rfl⟩

/-- C8 (witness): missing files, so no spawn event occurs. -/
theorem claim8_no_spawn_when_missing_witness :
    ((mainModel missingFileEnv).1.all fun ev => !(isSpawn ev)) = true ∧
    (mainModel missingFileEnv).2 = Outcome.exitNotFound :=
  claim8_no_spawn_when_missing missingFileEnv (by decide) (Or.inl rfl)

end SideBySide
